import Mathlib

/-!
Verification of the ledger core of the Tiles & Granite inventory app
(`app.py`), shallowly embedded in Lean.  Rows of the five tables are
records; table contents are lists; pandas numeric coercions with
`fillna(0)` become total rational fields with `Option` for nullable
columns; timestamps are integer seconds; Python `round(x, 2)` is
modelled exactly as half-even rounding on rationals.  The row store
(`append_row`) is the external collaborator: an append either succeeds
or raises, controlled here by an explicit `storeFails` flag.
-/

namespace InventoryApp

/-- Row of the `products` table (columns id, name, material, size, unit,
opening_stock); `material`/`size` are nullable, `opening_stock` is coerced
numeric with nulls already filled to 0 by `products_df`. -/
structure Product where
  id : Nat
  name : String
  material : Option String
  size : Option String
  unit : String
  opening_stock : ℚ
deriving DecidableEq

/-- Row of the `customers` table. -/
structure Customer where
  id : Nat
  name : String
  phone : Option String
  address : Option String
deriving DecidableEq

/-- Row of the `suppliers` table. -/
structure Supplier where
  id : Nat
  name : String
  phone : Option String
  address : Option String
deriving DecidableEq

/-- Row of the `stock_moves` table.  `qty` is the stored signed quantity
(nulls filled to 0 by `stock_moves_df`); `price_per_unit`, the party ids
and `notes` are nullable.  `ts` is the timestamp in seconds. -/
structure StockMove where
  id : Nat
  ts : Int
  kind : String
  product_id : Nat
  qty : ℚ
  price_per_unit : Option ℚ
  customer_id : Option Nat
  supplier_id : Option Nat
  notes : Option String
deriving DecidableEq

/-- Row of the `payments` table as written by `add_payment`. -/
structure Payment where
  id : Nat
  ts : Int
  customer_id : Option Nat
  supplier_id : Option Nat
  kind : String
  amount : ℚ
  notes : Option String
deriving DecidableEq

/-- The whole row store: one list per table. -/
structure Store where
  products : List Product
  customers : List Customer
  suppliers : List Supplier
  stock_moves : List StockMove
  payments : List Payment
deriving DecidableEq

/-- First `products` row with the given id (`df[df["id"] == product_id]`,
then `iloc[0]`). -/
def findProduct (s : Store) (pid : Nat) : Option Product :=
  s.products.find? (fun p => p.id == pid)

/-- Embedding of `_get_opening_stock`: opening stock of the first matching
product row, 0.0 when the table is empty or the id is absent. -/
def getOpeningStock (s : Store) (pid : Nat) : ℚ :=
  match findProduct s pid with
  | none => 0
  | some p => p.opening_stock

/-- Embedding of `product_stock`: opening stock plus the sum of `qty` over
the product's moves, with the early return when `stock_moves` is empty. -/
def productStock (s : Store) (pid : Nat) : ℚ :=
  let opening := getOpeningStock s pid
  if s.stock_moves.isEmpty then opening
  else opening + ((s.stock_moves.filter fun m => m.product_id == pid).map (fun m => m.qty)).sum

/-- Concrete store for exercising `product_stock`: product 1 has opening
stock 2 and a single sale move of stored qty −7, so its stock is −5. -/
def c1Product : Product := ⟨1, "Granite Slab", none, some "600x600", "box", 2⟩

/-- Store holding `c1Product` and one sale move of −7 units. -/
def c1Store : Store :=
  ⟨[c1Product], [], [], [⟨1, 100, "sale", 1, -7, some 20, some 1, none, none⟩], []⟩

/-- C1: for every product id `pid` resolving to a product row `p`,
`product_stock` returns `p.opening_stock` plus the sum of `qty` over all
stock-move rows whose `product_id` is `pid` (sale rows already stored
negative); with no moves this is the opening stock unchanged, and a
negative result is returned without clamping. -/
theorem product_stock_spec (s : Store) (pid : Nat) (p : Product)
    (hp : findProduct s pid = some p) :
    productStock s pid =
      p.opening_stock +
        ((s.stock_moves.filter fun m => decide (m.product_id = pid)).map (fun m => m.qty)).sum := by
  unfold productStock getOpeningStock
  rw [hp]
  have hfilt :
      (s.stock_moves.filter fun m => m.product_id == pid) =
        (s.stock_moves.filter fun m => decide (m.product_id = pid)) := by
    apply List.filter_congr
    intro m _
    show (m.product_id == pid) = decide (m.product_id = pid)
    rw [Bool.eq_iff_iff]
    simp
  by_cases h : s.stock_moves.isEmpty
  · have hnil : s.stock_moves = [] := List.isEmpty_iff.mp h
    simp [h, hnil]
  · simp only [if_neg h, hfilt]

/-- Witness for C1 at a concrete store: product 1 (opening stock 2) with a
single sale move of −7 yields stock −5, negative and unclamped. -/
theorem product_stock_spec_witness :
    (productStock c1Store 1 =
      c1Product.opening_stock +
        ((c1Store.stock_moves.filter fun m => decide (m.product_id = 1)).map (fun m => m.qty)).sum) ∧
    productStock c1Store 1 = -5 :=
  ⟨product_stock_spec c1Store 1 c1Product (by decide), by
    simp [productStock, getOpeningStock, findProduct, c1Store, c1Product]
    norm_num⟩

/-- Half-to-even integer rounding of a rational, the exact-arithmetic model
of the rounding Python's builtin round performs. -/
def roundHalfEven (x : ℚ) : ℤ :=
  let f := ⌊x⌋
  if x - f < 1/2 then f
  else if 1/2 < x - f then f + 1
  else if f % 2 = 0 then f else f + 1

/-- Model of Python round(x, 2) as used by `customer_balance` and
`supplier_balance`: round x·100 half-to-even and divide by 100. -/
def round2 (x : ℚ) : ℚ := (roundHalfEven (x * 100) : ℚ) / 100

/-- Embedding of `customer_balance`: 0.0 for a falsy customer id, otherwise
sales total (|qty| × price, null price as 0) over that customer's sale
moves, plus opening_due payments, minus payment payments, minus advance
payments, rounded to 2 decimals. -/
def customerBalance (s : Store) (cid : Nat) : ℚ :=
  if cid = 0 then 0
  else
    let sales := s.stock_moves.filter fun m => m.kind == "sale" && m.customer_id == some cid
    let salesTotal := (sales.map fun m => |m.qty| * m.price_per_unit.getD 0).sum
    let p := s.payments.filter fun r => r.customer_id == some cid
    let openingDue := ((p.filter fun r => r.kind == "opening_due").map fun r => r.amount).sum
    let pays := ((p.filter fun r => r.kind == "payment").map fun r => r.amount).sum
    let advances := ((p.filter fun r => r.kind == "advance").map fun r => r.amount).sum
    round2 (salesTotal + openingDue - pays - advances)

/-- The customer-balance formula exactly as the spec words it, with no
rounding: Σ(|qty| × price_per_unit) over sale moves of the customer, plus
Σ(amount) over opening_due payments, minus Σ(amount) over payment rows,
minus Σ(amount) over advance rows, the three kinds summed separately. -/
def customerBalanceSpec (s : Store) (cid : Nat) : ℚ :=
  ((s.stock_moves.filter fun m => m.kind == "sale" && m.customer_id == some cid).map
      fun m => |m.qty| * m.price_per_unit.getD 0).sum
  + ((s.payments.filter fun r => r.kind == "opening_due" && r.customer_id == some cid).map
      fun r => r.amount).sum
  - ((s.payments.filter fun r => r.kind == "payment" && r.customer_id == some cid).map
      fun r => r.amount).sum
  - ((s.payments.filter fun r => r.kind == "advance" && r.customer_id == some cid).map
      fun r => r.amount).sum

/-- Store with customer 1 having one sale of 10 units at price 20 (stored
qty −10), one opening_due of 50 and one payment of 100. -/
def c2Store : Store :=
  ⟨[], [⟨1, "A", none, none⟩], [],
   [⟨1, 10, "sale", 1, -10, some 20, some 1, none, none⟩],
   [⟨1, 20, some 1, none, "opening_due", 50, none⟩,
    ⟨2, 30, some 1, none, "payment", 100, none⟩]⟩

/-- Store with customer 1 having a single sale of 1 unit at price 1/8
(0.125, exactly representable in binary floating point). -/
def c2rStore : Store :=
  ⟨[], [⟨1, "A", none, none⟩], [],
   [⟨1, 10, "sale", 1, -1, some (1/8), some 1, none, none⟩], []⟩

/-- C2 counterexample: for a sale of 1 unit at price 0.125 the spec formula
gives 0.125, but `customer_balance` rounds its result to 2 decimals and
returns 0.12, so the returned balance is not equal to the claimed sum. -/
theorem customer_balance_rounding_counterexample :
    customerBalance c2rStore 1 = 12/100 ∧
    customerBalanceSpec c2rStore 1 = 1/8 ∧
    customerBalance c2rStore 1 ≠ customerBalanceSpec c2rStore 1 := by
  have hfl : ⌊(25/2 : ℚ)⌋ = 12 := by
    rw [Int.floor_eq_iff]; norm_num
  have hfr : Int.fract (25/2 : ℚ) = 1/2 := by
    unfold Int.fract; rw [hfl]; norm_num
  refine ⟨?_, ?_, ?_⟩
  · simp [customerBalance, c2rStore, round2, roundHalfEven]
    norm_num [hfl, hfr]
  · simp [customerBalanceSpec, c2rStore]
  · simp [customerBalance, customerBalanceSpec, c2rStore, round2, roundHalfEven]
    norm_num [hfl, hfr]

/-- C2 amended: for every non-falsy customer id, `customer_balance` returns
the spec's balance formula rounded half-to-even to 2 decimal places (the
kinds being summed separately and null prices contributing 0). -/
theorem customer_balance_spec (s : Store) (cid : Nat) (h : cid ≠ 0) :
    customerBalance s cid = round2 (customerBalanceSpec s cid) := by
  unfold customerBalance customerBalanceSpec
  rw [if_neg h]
  simp only [List.filter_filter]

/-- Witness for C2 amended at the claim's own example: one sale of 10 units
at price 20, one opening_due of 50, one payment of 100 give balance 150. -/
theorem customer_balance_spec_witness :
    (1 : Nat) ≠ 0 ∧
    customerBalance c2Store 1 = round2 (customerBalanceSpec c2Store 1) ∧
    customerBalance c2Store 1 = 150 := by
  have hfl : ⌊(15000 : ℚ)⌋ = 15000 := by
    rw [Int.floor_eq_iff]; norm_num
  refine ⟨by decide, customer_balance_spec c2Store 1 (by decide), ?_⟩
  simp [customerBalance, c2Store, round2, roundHalfEven]
  norm_num [hfl]

/-- Model of the store-assigned id for a new stock-move row (`_next_id`:
largest existing id plus one, 1 on an empty table). -/
def nextMoveId (s : Store) : Nat :=
  (s.stock_moves.map fun m => m.id).foldr max 0 + 1

/-- Model of the store-assigned id for a new payment row. -/
def nextPaymentId (s : Store) : Nat :=
  (s.payments.map fun p => p.id).foldr max 0 + 1

/-- Sign normalization of `add_move`: a sale with a positive caller
quantity is negated before storing, anything else is kept as passed. -/
def normQty (kind : String) (qty : ℚ) : ℚ :=
  if kind = "sale" ∧ 0 < qty then -qty else qty

/-- Party-id comparison value used by the dedupe scan: stored and queried
customer/supplier ids are compared after filling nulls with −1. -/
def partySentinel (o : Option Nat) : Int :=
  match o with
  | none => -1
  | some n => n

/-- One row of the dedupe mask of `add_move`: the row's timestamp is at or
after `since` = ts − window (the code puts no upper bound on it), and kind,
product, stored qty, price (null as 0), both party ids (null as −1) and
notes (null as empty string) all agree. -/
def dupMatch (kind : String) (pid : Nat) (insQty : ℚ) (ppu : Option ℚ)
    (cid sid : Option Nat) (notes : Option String) (since : Int)
    (m : StockMove) : Bool :=
  decide (since ≤ m.ts) && decide (m.kind = kind) && decide (m.product_id = pid) &&
  decide (m.qty = insQty) && decide (m.price_per_unit.getD 0 = ppu.getD 0) &&
  decide (partySentinel m.customer_id = partySentinel cid) &&
  decide (partySentinel m.supplier_id = partySentinel sid) &&
  decide (m.notes.getD "" = notes.getD "")

/-- The stock-move row `add_move` appends: normalized qty, price and party
ids as passed, empty notes stored as null. -/
def insertedMove (s : Store) (kind : String) (pid : Nat) (insQty : ℚ)
    (ppu : Option ℚ) (cid sid : Option Nat) (notes : Option String)
    (ts : Int) : StockMove :=
  ⟨nextMoveId s, ts, kind, pid, insQty, ppu, cid, sid,
   if notes.getD "" = "" then none else notes⟩

/-- Embedding of `add_move`.  `storeFails` models the row-store append
raising; `add_move` does not catch it, so it propagates as `.error`.
The boolean result is True for a saved row and False for a skipped
duplicate. -/
def addMove (storeFails : Bool) (kind : String) (pid : Nat) (qty : ℚ)
    (ppu : Option ℚ) (cid sid : Option Nat) (notes : Option String)
    (ts : Int) (w : Nat) (s : Store) : Except String (Store × Bool) :=
  let insQty := normQty kind qty
  if decide (0 < w) && s.stock_moves.any (dupMatch kind pid insQty ppu cid sid notes (ts - w)) then
    .ok (s, false)
  else if storeFails then
    .error "append_row failed"
  else
    .ok ({ s with stock_moves :=
            s.stock_moves ++ [insertedMove s kind pid insQty ppu cid sid notes ts] }, true)

/-- Embedding of `add_payment`.  A falsy party pair or non-positive amount
is rejected before the store; the append itself is wrapped in try/except,
so a failing store append is caught and reported as a False return (the
function never propagates a store error).  The dedupe window parameter is
accepted but, unlike in `add_move`, never used. -/
def addPayment (storeFails : Bool) (cid : Option Nat) (kind : String)
    (amount : ℚ) (sid : Option Nat) (notes : Option String) (ts : Int)
    (_w : Nat) (s : Store) : Except String (Store × Bool) :=
  if (cid.getD 0 = 0 ∧ sid.getD 0 = 0) ∨ amount ≤ 0 then
    .ok (s, false)
  else if storeFails then
    .ok (s, false)
  else
    .ok ({ s with payments := s.payments ++
            [⟨nextPaymentId s, ts, (if cid.getD 0 = 0 then none else cid),
              (if sid.getD 0 = 0 then none else sid), kind, amount,
              (if notes.getD "" = "" then none else notes)⟩] }, true)

/-- Unfolding equation of `addMove` with the let bindings expanded. -/
theorem addMove_eq (storeFails : Bool) (kind : String) (pid : Nat) (q : ℚ)
    (ppu : Option ℚ) (cid sid : Option Nat) (notes : Option String)
    (ts : Int) (w : Nat) (s : Store) :
    addMove storeFails kind pid q ppu cid sid notes ts w s =
      if decide (0 < w) &&
          s.stock_moves.any (dupMatch kind pid (normQty kind q) ppu cid sid notes (ts - w)) then
        .ok (s, false)
      else if storeFails then
        .error "append_row failed"
      else
        .ok ({ s with stock_moves :=
                s.stock_moves ++
                  [insertedMove s kind pid (normQty kind q) ppu cid sid notes ts] }, true) :=
  rfl

/-- Store with one product and no moves, for exercising `add_move`. -/
def c3Store : Store := ⟨[⟨1, "P", none, none, "box", 0⟩], [], [], [], []⟩

/-- `c3Store` after a sale of 5 units: stored qty −5. -/
def c3SaleStore : Store :=
  ⟨[⟨1, "P", none, none, "box", 0⟩], [], [],
   [⟨1, 0, "sale", 1, -5, none, none, none, none⟩], []⟩

/-- `c3Store` after a purchase of 5 units: stored qty +5. -/
def c3PurchStore : Store :=
  ⟨[⟨1, "P", none, none, "box", 0⟩], [], [],
   [⟨1, 0, "purchase", 1, 5, none, none, none, none⟩], []⟩

/-- C3: whenever `add_move` actually saves a row (returns True), a sale
called with a positive quantity q stores qty = −q and a purchase with
positive q stores qty = +q; the appended row is the only change to the
moves table. -/
theorem add_move_sign_normalization (pid : Nat) (q : ℚ) (ppu : Option ℚ)
    (cid sid : Option Nat) (notes : Option String) (ts : Int) (w : Nat)
    (s s₁ s₂ : Store) (hq : 0 < q)
    (hs : addMove false "sale" pid q ppu cid sid notes ts w s = .ok (s₁, true))
    (hp : addMove false "purchase" pid q ppu cid sid notes ts w s = .ok (s₂, true)) :
    (∃ m₁, s₁.stock_moves = s.stock_moves ++ [m₁] ∧ m₁.qty = -q) ∧
    (∃ m₂, s₂.stock_moves = s.stock_moves ++ [m₂] ∧ m₂.qty = q) := by
  constructor
  · rw [addMove_eq] at hs
    split at hs
    · simp at hs
    · simp only [Bool.false_eq_true, if_false] at hs
      have h1 : ({ s with stock_moves :=
          s.stock_moves ++ [insertedMove s "sale" pid (normQty "sale" q) ppu cid sid notes ts] } : Store) = s₁ :=
        congrArg Prod.fst ((Except.ok.injEq _ _).mp hs)
      subst h1
      refine ⟨insertedMove s "sale" pid (normQty "sale" q) ppu cid sid notes ts, rfl, ?_⟩
      simp [insertedMove, normQty, hq]
  · rw [addMove_eq] at hp
    split at hp
    · simp at hp
    · simp only [Bool.false_eq_true, if_false] at hp
      have h1 : ({ s with stock_moves :=
          s.stock_moves ++ [insertedMove s "purchase" pid (normQty "purchase" q) ppu cid sid notes ts] } : Store) = s₂ :=
        congrArg Prod.fst ((Except.ok.injEq _ _).mp hp)
      subst h1
      refine ⟨insertedMove s "purchase" pid (normQty "purchase" q) ppu cid sid notes ts, rfl, ?_⟩
      simp [insertedMove, normQty]

/-- Witness for C3: on `c3Store`, a sale of 5 stores qty −5 and a purchase
of 5 stores qty +5. -/
theorem add_move_sign_normalization_witness :
    (0 : ℚ) < 5 ∧
    (∃ m₁, c3SaleStore.stock_moves = c3Store.stock_moves ++ [m₁] ∧ m₁.qty = -5) ∧
    (∃ m₂, c3PurchStore.stock_moves = c3Store.stock_moves ++ [m₂] ∧ m₂.qty = 5) := by
  have h := add_move_sign_normalization 1 5 none none none none 0 0
    c3Store c3SaleStore c3PurchStore (by norm_num) rfl rfl
  exact ⟨by norm_num, h.1, h.2⟩

/-- Spec-level reading of the duplicate guard's match condition as the code
implements it: the window is active, and some existing row of the same
product has timestamp at or after ts − window (with no upper bound) and
agrees on kind, normalized qty, price (null as 0), both party ids (null as
−1) and notes (null as empty string). -/
def DupCondition (kind : String) (pid : Nat) (q : ℚ) (ppu : Option ℚ)
    (cid sid : Option Nat) (notes : Option String) (ts : Int) (w : Nat)
    (s : Store) : Prop :=
  0 < w ∧ ∃ m ∈ s.stock_moves,
    ts - (w : Int) ≤ m.ts ∧ m.kind = kind ∧ m.product_id = pid ∧
    m.qty = normQty kind q ∧ m.price_per_unit.getD 0 = ppu.getD 0 ∧
    partySentinel m.customer_id = partySentinel cid ∧
    partySentinel m.supplier_id = partySentinel sid ∧
    m.notes.getD "" = notes.getD ""

/-- Store whose only move is timestamped 5000, used against a call at
timestamp 1000 with a 120-second window. -/
def c4Store : Store :=
  ⟨[⟨1, "P", none, none, "box", 0⟩], [], [],
   [⟨1, 5000, "sale", 1, -5, some 10, none, none, none⟩], []⟩

/-- C4 counterexample: no existing row lies within the 120-second window
before timestamp 1000 (the only row is at 5000, in the future), yet
`add_move` skips the insert and reports a duplicate, because the scan has
no upper time bound. -/
theorem add_move_dedupe_window_counterexample :
    (∀ m ∈ c4Store.stock_moves, ¬((1000 : Int) - 120 ≤ m.ts ∧ m.ts ≤ 1000)) ∧
    addMove false "sale" 1 5 (some 10) none none none 1000 120 c4Store =
      .ok (c4Store, false) := by
  exact ⟨by decide, by rfl⟩

/-- C4 amended: `add_move` (with a working store) skips and reports False
exactly when the window is active and some existing row matching on kind,
normalized qty, price, party ids and notes has timestamp ≥ ts − window —
with no upper bound, so rows after the given timestamp also suppress the
save — and otherwise appends exactly one new row and reports True. -/
theorem add_move_dedupe_characterization (kind : String) (pid : Nat) (q : ℚ)
    (ppu : Option ℚ) (cid sid : Option Nat) (notes : Option String)
    (ts : Int) (w : Nat) (s : Store) :
    (addMove false kind pid q ppu cid sid notes ts w s = .ok (s, false) ↔
      DupCondition kind pid q ppu cid sid notes ts w s) ∧
    (addMove false kind pid q ppu cid sid notes ts w s =
        .ok ({ s with stock_moves :=
          s.stock_moves ++ [insertedMove s kind pid (normQty kind q) ppu cid sid notes ts] }, true) ↔
      ¬DupCondition kind pid q ppu cid sid notes ts w s) := by
  have key : (decide (0 < w) &&
      s.stock_moves.any (dupMatch kind pid (normQty kind q) ppu cid sid notes (ts - w))) = true ↔
      DupCondition kind pid q ppu cid sid notes ts w s := by
    unfold DupCondition dupMatch
    simp [List.any_eq_true, and_assoc]
  by_cases hd : DupCondition kind pid q ppu cid sid notes ts w s
  · rw [addMove_eq, if_pos (key.mpr hd)]
    refine ⟨iff_of_true rfl hd, iff_of_false ?_ (not_not_intro hd)⟩
    intro h
    simp at h
  · rw [addMove_eq, if_neg (fun hb => hd (key.mp hb))]
    rw [if_neg Bool.false_ne_true]
    refine ⟨iff_of_false ?_ hd, iff_of_true rfl hd⟩
    intro h
    simp at h

/-- Store with one customer, used for the payment-related claims. -/
def c6Store : Store := ⟨[], [⟨1, "A", none, none⟩], [], [], []⟩

/-- C6 counterexample: with valid arguments and a failing store append,
`add_payment` returns False with the store unchanged — the store error is
caught inside the function and never propagated to the caller. -/
theorem add_payment_swallows_store_error_counterexample :
    addPayment true (some 1) "payment" 100 none none 0 120 c6Store =
      .ok (c6Store, false) ∧
    ∀ e, addPayment true (some 1) "payment" 100 none none 0 120 c6Store ≠
      .error e := by
  constructor
  · rfl
  · intro e h
    rw [show addPayment true (some 1) "payment" 100 none none 0 120 c6Store =
        .ok (c6Store, false) from rfl] at h
    simp at h

/-- C6 amended: when the store append fails, `add_move` propagates the
failure as a store error, while `add_payment` (on arguments that pass
validation) catches it and returns False with the store unchanged. -/
theorem store_error_propagation (kind : String) (pid : Nat) (q : ℚ)
    (ppu : Option ℚ) (cid sid : Option Nat) (notes : Option String)
    (ts : Int) (s : Store) (cid2 sid2 : Option Nat) (pkind : String)
    (amt : ℚ) (notes2 : Option String) (ts2 : Int) (w2 : Nat)
    (hv : ¬((cid2.getD 0 = 0 ∧ sid2.getD 0 = 0) ∨ amt ≤ 0)) :
    addMove true kind pid q ppu cid sid notes ts 0 s = .error "append_row failed" ∧
    addPayment true cid2 pkind amt sid2 notes2 ts2 w2 s = .ok (s, false) := by
  constructor
  · rw [addMove_eq, if_neg (by simp)]
    rfl
  · unfold addPayment
    rw [if_neg hv]
    rfl

/-- Witness for C6 amended: customer 1 paying 100 passes validation; with
the store failing, add_move errors while add_payment returns False. -/
theorem store_error_propagation_witness :
    ¬(((some 1 : Option Nat).getD 0 = 0 ∧ (none : Option Nat).getD 0 = 0) ∨ (100 : ℚ) ≤ 0) ∧
    addMove true "sale" 1 5 none none none none 0 0 c6Store = .error "append_row failed" ∧
    addPayment true (some 1) "payment" 100 none none 0 120 c6Store = .ok (c6Store, false) := by
  have hv : ¬(((some 1 : Option Nat).getD 0 = 0 ∧ (none : Option Nat).getD 0 = 0) ∨ (100 : ℚ) ≤ 0) := by
    simp
  have h := store_error_propagation "sale" 1 5 none none none none 0 c6Store
    (some 1) none "payment" 100 none 0 120 hv
  exact ⟨hv, h.1, h.2⟩

/-- Customer table only, before any payment. -/
def c5Store0 : Store := ⟨[], [⟨1, "A", none, none⟩], [], [], []⟩

/-- `c5Store0` after one payment of 100 at time 0. -/
def c5Store1 : Store :=
  ⟨[], [⟨1, "A", none, none⟩], [], [],
   [⟨1, 0, some 1, none, "payment", 100, none⟩]⟩

/-- `c5Store1` after an identical payment 50 seconds later. -/
def c5Store2 : Store :=
  ⟨[], [⟨1, "A", none, none⟩], [], [],
   [⟨1, 0, some 1, none, "payment", 100, none⟩,
    ⟨2, 50, some 1, none, "payment", 100, none⟩]⟩

/-- C5 evaluation: a non-positive amount is rejected before the store, but
a structurally identical payment 50 seconds after the first — well inside
the 120-second window — is appended as a second row and reported as saved:
`add_payment` performs no duplicate scan even though it accepts the
dedupe-window parameter. -/
theorem add_payment_no_dedupe_eval :
    addPayment false (some 1) "payment" 0 none none 0 120 c5Store0 =
      .ok (c5Store0, false) ∧
    addPayment false (some 1) "payment" 100 none none 0 120 c5Store0 =
      .ok (c5Store1, true) ∧
    addPayment false (some 1) "payment" 100 none none 50 120 c5Store1 =
      .ok (c5Store2, true) ∧
    c5Store2.payments.length = 2 := by
  exact ⟨rfl, rfl, rfl, rfl⟩

/-- Model of Python str.lower: character-wise lower-casing, defined
structurally on the character list so proofs can evaluate it. -/
def lowerStr (x : String) : String := ⟨x.data.map Char.toLower⟩

/-- Model of Python str.strip: drop whitespace from both ends, defined
structurally on the character list so proofs can evaluate it. -/
def stripStr (x : String) : String :=
  ⟨((x.data.dropWhile Char.isWhitespace).reverse.dropWhile Char.isWhitespace).reverse⟩

/-- Lower-casing the empty string gives the empty string. -/
theorem lowerStr_empty : lowerStr "" = "" := rfl

/-- Model of the store-assigned id for a new product row. -/
def nextProductId (s : Store) : Nat :=
  (s.products.map fun p => p.id).foldr max 0 + 1

/-- Row mask of `get_product_by_name_size_unit` against the lookup key
(n, sz, u): name compared lower-cased, unit compared exactly, size
compared lower-cased with null as empty string. -/
def productMask (n sz u : String) (p : Product) : Bool :=
  lowerStr p.name == n && p.unit == u && (p.size.map lowerStr).getD "" == sz

/-- Embedding of `get_product_by_name_size_unit`: first row matching the
`products_lookup_key` triple (stripped lower name, stripped lower size,
stripped unit — the unit is not lower-cased). -/
def getProductByNameSizeUnit (s : Store) (name size unit : String) : Option Product :=
  s.products.find? (productMask (lowerStr (stripStr name)) (lowerStr (stripStr size)) (stripStr unit))

/-- Material normalization of `add_product`: strip, blank stored as null. -/
def normMaterial (material : Option String) : Option String :=
  match material with
  | none => none
  | some m => if stripStr m = "" then none else some (stripStr m)

/-- Embedding of `add_product`: append a product row with stripped fields,
blank material/size stored as null. -/
def addProduct (s : Store) (name : String) (material : Option String)
    (size : String) (unit : String) (opening : ℚ) : Store :=
  { s with products := s.products ++
      [⟨nextProductId s, stripStr name, normMaterial material,
        (if stripStr size = "" then none else some (stripStr size)),
        stripStr unit, opening⟩] }

/-- Row mask of the post-insert re-lookup inside `ensure_product`
(app.py:298-301): the same comparisons as `productMask` but without the
fillna steps, so a row whose size is NULL never matches (its NA comparison
is dropped by the boolean indexing). -/
def productMaskNoFill (n sz u : String) (p : Product) : Bool :=
  lowerStr p.name == n && p.unit == u &&
    (match p.size with
     | none => false
     | some z => lowerStr z == sz)

/-- Embedding of `ensure_product`: look the key up with
`get_product_by_name_size_unit`; if absent, create the product and look it
up again — but with the fillna-less mask of app.py:298-301, so a
just-created row with a NULL (blank) size is not re-found and the creating
call returns None. -/
def ensureProduct (s : Store) (name size unit : String)
    (material : Option String) (opening : ℚ) : Store × Option Nat :=
  match getProductByNameSizeUnit s name size unit with
  | some p => (s, some p.id)
  | none =>
    let s1 := addProduct s name material size unit opening
    match s1.products.find?
        (productMaskNoFill (lowerStr (stripStr name)) (lowerStr (stripStr size)) (stripStr unit)) with
    | some p => (s1, some p.id)
    | none => (s1, none)

/-- Store holding one product whose unit is spelled "Box". -/
def c7Store : Store := ⟨[⟨1, "Tile", none, some "600", "Box", 0⟩], [], [], [], []⟩

/-- Empty store used for the blank-size part of the C7 counterexample and
for the C7 witness. -/
def c7bStore : Store := ⟨[], [], [], [], []⟩

/-- C7 counterexample, two failure modes: (a) product 1 matches the
requested ("Tile", "600", "box") up to letter case on every identifying
field, yet `ensure_product` does not find it — the unit is compared
case-sensitively — and appends a second product row instead of returning
id 1; (b) with a blank size the creating call returns None — the new
NULL-size row is not re-found by the post-insert lookup, which lacks the
first lookup's fillna — while the second identical call returns its id, so
the two calls do not return the same id. -/
theorem ensure_product_lookup_counterexample :
    (lowerStr "Box" = lowerStr "box" ∧
     (ensureProduct c7Store "Tile" "600" "box" none 0).1.products.length = 2 ∧
     (ensureProduct c7Store "Tile" "600" "box" none 0).2 ≠ some 1) ∧
    ((ensureProduct c7bStore "Slab" "" "box" none 0).2 = none ∧
     (ensureProduct (ensureProduct c7bStore "Slab" "" "box" none 0).1
        "Slab" "" "box" none 0).2 = some 1 ∧
     (ensureProduct (ensureProduct c7bStore "Slab" "" "box" none 0).1
        "Slab" "" "box" none 0).1 =
       (ensureProduct c7bStore "Slab" "" "box" none 0).1) := by
  refine ⟨⟨by decide, by decide, by decide⟩, by decide, by decide, by decide⟩

/-- C7 amended: for a size that does not strip to blank, `ensure_product`
is idempotent for identical arguments — the second call returns the same
id and leaves the store unchanged, the existing row being found
case-insensitively on name and size but case-sensitively (after trimming)
on unit.  (With a blank size the creating call itself returns None, the
NULL-size row not being re-found by the fillna-less post-insert lookup,
while the second call returns the row's id.) -/
theorem ensure_product_idempotent (s : Store) (name size unit : String)
    (material : Option String) (opening : ℚ) (hsz : stripStr size ≠ "") :
    (ensureProduct (ensureProduct s name size unit material opening).1
        name size unit material opening).1 =
      (ensureProduct s name size unit material opening).1 ∧
    (ensureProduct (ensureProduct s name size unit material opening).1
        name size unit material opening).2 =
      (ensureProduct s name size unit material opening).2 := by
  cases h : getProductByNameSizeUnit s name size unit with
  | some p =>
    have r1 : ensureProduct s name size unit material opening = (s, some p.id) := by
      unfold ensureProduct
      rw [h]
    rw [r1]
    exact ⟨congrArg Prod.fst r1, congrArg Prod.snd r1⟩
  | none =>
    have haddp : addProduct s name material size unit opening =
        { s with products := s.products ++
          [⟨nextProductId s, stripStr name, normMaterial material,
            some (stripStr size), stripStr unit, opening⟩] } := by
      unfold addProduct
      rw [if_neg hsz]
    have hfillnew : productMask (lowerStr (stripStr name)) (lowerStr (stripStr size)) (stripStr unit)
        (⟨nextProductId s, stripStr name, normMaterial material,
          some (stripStr size), stripStr unit, opening⟩ : Product) = true := by
      unfold productMask
      simp
    have hnofillnew : productMaskNoFill (lowerStr (stripStr name)) (lowerStr (stripStr size)) (stripStr unit)
        (⟨nextProductId s, stripStr name, normMaterial material,
          some (stripStr size), stripStr unit, opening⟩ : Product) = true := by
      unfold productMaskNoFill
      simp
    have hnf_none : s.products.find? (productMaskNoFill (lowerStr (stripStr name))
        (lowerStr (stripStr size)) (stripStr unit)) = none := by
      unfold getProductByNameSizeUnit at h
      rw [List.find?_eq_none] at h ⊢
      intro p hp hno
      apply h p hp
      revert hno
      unfold productMask productMaskNoFill
      cases hps : p.size with
      | none => simp [hps]
      | some z => simp [hps]
    have key2 : (addProduct s name material size unit opening).products.find?
        (productMaskNoFill (lowerStr (stripStr name)) (lowerStr (stripStr size)) (stripStr unit)) =
        some (⟨nextProductId s, stripStr name, normMaterial material,
          some (stripStr size), stripStr unit, opening⟩ : Product) := by
      rw [haddp]
      show (s.products ++ [_]).find? _ = _
      rw [List.find?_append, hnf_none, Option.none_or]
      show List.find? _ [_] = _
      rw [List.find?_cons, hnofillnew]
    have keyFill : getProductByNameSizeUnit (addProduct s name material size unit opening)
        name size unit =
        some (⟨nextProductId s, stripStr name, normMaterial material,
          some (stripStr size), stripStr unit, opening⟩ : Product) := by
      unfold getProductByNameSizeUnit at h ⊢
      rw [haddp]
      show (s.products ++ [_]).find? _ = _
      rw [List.find?_append, h, Option.none_or]
      show List.find? _ [_] = _
      rw [List.find?_cons, hfillnew]
    have r1 : ensureProduct s name size unit material opening =
        (addProduct s name material size unit opening, some (nextProductId s)) := by
      unfold ensureProduct
      rw [h]
      simp only [key2]
    have r2 : ensureProduct (addProduct s name material size unit opening)
        name size unit material opening =
        (addProduct s name material size unit opening, some (nextProductId s)) := by
      unfold ensureProduct
      rw [keyFill]
    rw [r1, r2]
    exact ⟨rfl, rfl⟩

/-- Witness for C7 amended: on an empty store, two identical calls with
the non-blank size "600" leave the same one-product store and both return
id 1. -/
theorem ensure_product_idempotent_witness :
    stripStr "600" ≠ "" ∧
    (ensureProduct (ensureProduct c7bStore "Tile" "600" "box" none 0).1
        "Tile" "600" "box" none 0).1 =
      (ensureProduct c7bStore "Tile" "600" "box" none 0).1 ∧
    (ensureProduct (ensureProduct c7bStore "Tile" "600" "box" none 0).1
        "Tile" "600" "box" none 0).2 =
      (ensureProduct c7bStore "Tile" "600" "box" none 0).2 ∧
    (ensureProduct c7bStore "Tile" "600" "box" none 0).2 = some 1 := by
  have h := ensure_product_idempotent c7bStore "Tile" "600" "box" none 0 (by decide)
  exact ⟨by decide, h.1, h.2, by decide⟩

/-- Status column of the end-of-day stock snapshot in the Daily Report
tab: the warning string exactly when the derived stock is negative. -/
def snapshotStatus (s : Store) (pid : Nat) : String :=
  if productStock s pid < 0 then "NEGATIVE ⚠️" else ""

/-- Store where product 1 (opening stock 2) has a sale of 7, stock −5. -/
def c8Store : Store :=
  ⟨[⟨1, "P", none, none, "box", 2⟩], [], [],
   [⟨1, 0, "sale", 1, -7, none, some 1, none, none⟩], []⟩

/-- C8 counterexample: at a store where product 1's derived stock is −5,
`product_stock` returns the bare rational −5 — its result carries no
boolean or tagged flag, so the below-zero state is not surfaced distinctly
by the function itself. -/
theorem product_stock_bare_value_counterexample :
    productStock c8Store 1 = (-5 : ℚ) ∧ productStock c8Store 1 < 0 := by
  have h : productStock c8Store 1 = -5 := by
    simp [productStock, getOpeningStock, findProduct, c8Store]
    norm_num
  exact ⟨h, by rw [h]; norm_num⟩

/-- C8 amended: `product_stock` returns a bare number (negative values
included, unclamped); the distinct surfacing is done by its callers — the
daily-report snapshot computes the Status flag "NEGATIVE ⚠️" exactly when
the value returned by `product_stock` is below zero. -/
theorem snapshot_status_flags_negative (s : Store) (pid : Nat) :
    snapshotStatus s pid = "NEGATIVE ⚠️" ↔ productStock s pid < 0 := by
  unfold snapshotStatus
  by_cases h : productStock s pid < 0
  · simp [h]
  · simp [h]

/-- Timestamp order on stock moves used by the daily report's sort. -/
def tsLe (a b : StockMove) : Prop := a.ts ≤ b.ts

instance : DecidableRel tsLe := fun a b => Int.decLe a.ts b.ts

instance : IsTotal StockMove tsLe := ⟨fun a b => Int.le_total a.ts b.ts⟩

instance : IsTrans StockMove tsLe := ⟨fun _ _ _ => Int.le_trans⟩

/-- Embedding of the Daily Report move filter: a date is represented by
its midnight instant d0; rows with d0 ≤ ts ≤ d0 + 86399 (23:59:59 of the
same day, both bounds inclusive) are kept and sorted by timestamp. -/
def movesOnDay (s : Store) (d0 : Int) : List StockMove :=
  List.insertionSort tsLe
    (s.stock_moves.filter fun m => decide (d0 ≤ m.ts) && decide (m.ts ≤ d0 + 86399))

/-- Embedding of the Daily Report payment filter (same window, unsorted). -/
def paymentsOnDay (s : Store) (d0 : Int) : List Payment :=
  s.payments.filter fun p => decide (d0 ≤ p.ts) && decide (p.ts ≤ d0 + 86399)

/-- C9: the daily report contains exactly the stock moves and payments
whose timestamp lies in the day's 00:00:00–23:59:59 window, both bounds
inclusive — so 23:59:59 of day D (d0 + 86399) is included and 00:00:00 of
day D+1 (d0 + 86400) is excluded — and the kept moves are sorted by
timestamp ascending. -/
theorem daily_report_window (s : Store) (d0 : Int) :
    (∀ m : StockMove, m ∈ movesOnDay s d0 ↔
       m ∈ s.stock_moves ∧ d0 ≤ m.ts ∧ m.ts ≤ d0 + 86399) ∧
    List.Sorted tsLe (movesOnDay s d0) ∧
    (∀ p : Payment, p ∈ paymentsOnDay s d0 ↔
       p ∈ s.payments ∧ d0 ≤ p.ts ∧ p.ts ≤ d0 + 86399) := by
  refine ⟨?_, ?_, ?_⟩
  · intro m
    unfold movesOnDay
    rw [List.mem_insertionSort]
    simp [List.mem_filter]
  · exact List.sorted_insertionSort tsLe _
  · intro p
    unfold paymentsOnDay
    simp [List.mem_filter]

/-- Model of the store-assigned id for a new customer row. -/
def nextCustomerId (s : Store) : Nat :=
  (s.customers.map fun c => c.id).foldr max 0 + 1

/-- Model of the store-assigned id for a new supplier row. -/
def nextSupplierId (s : Store) : Nat :=
  (s.suppliers.map fun c => c.id).foldr max 0 + 1

/-- Embedding of `add_customer`: append with trimmed name, blank phone and
address stored as null. -/
def addCustomer (s : Store) (name : String) (phone addr : Option String) : Store :=
  { s with customers := s.customers ++
      [⟨nextCustomerId s, stripStr name,
        (match phone with
         | none => none
         | some p => if stripStr p = "" then none else some (stripStr p)),
        (match addr with
         | none => none
         | some a => if stripStr a = "" then none else some (stripStr a))⟩] }

/-- Embedding of `add_supplier`. -/
def addSupplier (s : Store) (name : String) (phone addr : Option String) : Store :=
  { s with suppliers := s.suppliers ++
      [⟨nextSupplierId s, stripStr name,
        (match phone with
         | none => none
         | some p => if stripStr p = "" then none else some (stripStr p)),
        (match addr with
         | none => none
         | some a => if stripStr a = "" then none else some (stripStr a))⟩] }

/-- Embedding of `ensure_customer_by_name`: blank names short-circuit to
None; otherwise find by case-insensitive name or create and re-find. -/
def ensureCustomerByName (s : Store) (name phone addr : Option String) :
    Store × Option Nat :=
  let nm := stripStr (name.getD "")
  if nm = "" then (s, none)
  else
    match s.customers.find? (fun c => lowerStr c.name == lowerStr nm) with
    | some c => (s, some c.id)
    | none =>
      let s1 := addCustomer s nm phone addr
      match s1.customers.find? (fun c => lowerStr c.name == lowerStr nm) with
      | some c => (s1, some c.id)
      | none => (s1, none)

/-- Embedding of `ensure_supplier_by_name`. -/
def ensureSupplierByName (s : Store) (name phone addr : Option String) :
    Store × Option Nat :=
  let nm := stripStr (name.getD "")
  if nm = "" then (s, none)
  else
    match s.suppliers.find? (fun c => lowerStr c.name == lowerStr nm) with
    | some c => (s, some c.id)
    | none =>
      let s1 := addSupplier s nm phone addr
      match s1.suppliers.find? (fun c => lowerStr c.name == lowerStr nm) with
      | some c => (s1, some c.id)
      | none => (s1, none)

/-- Store with existing customers and suppliers, to show the blank-name
early return leaves them untouched. -/
def c10Store : Store :=
  ⟨[], [⟨1, "A", none, none⟩], [⟨1, "S", none, none⟩], [], []⟩

/-- C10: a name that is null, empty or whitespace-only makes both
`ensure_customer_by_name` and `ensure_supplier_by_name` return None with
the store unchanged — nothing is appended to any table. -/
theorem ensure_by_name_blank (s : Store) (name phone addr : Option String)
    (h : stripStr (name.getD "") = "") :
    ensureCustomerByName s name phone addr = (s, none) ∧
    ensureSupplierByName s name phone addr = (s, none) := by
  unfold ensureCustomerByName ensureSupplierByName
  simp [h]

/-- Witness for C10: the whitespace-only name "   " trims to empty and
leaves `c10Store` unchanged with a None id from both functions. -/
theorem ensure_by_name_blank_witness :
    stripStr ((some "   " : Option String).getD "") = "" ∧
    ensureCustomerByName c10Store (some "   ") none none = (c10Store, none) ∧
    ensureSupplierByName c10Store (some "   ") none none = (c10Store, none) := by
  have h : stripStr ((some "   " : Option String).getD "") = "" := by decide
  have h2 := ensure_by_name_blank c10Store (some "   ") none none h
  exact ⟨h, h2.1, h2.2⟩

end InventoryApp
